import Mathlib

/-!
Verification of the dynamicForm repository (Express/Mongoose CRUD backend for
form submissions) against its natural-language specification.

The embedding models the MongoDB-backed submission store as a list of documents
in insertion order together with an identifier counter.  Server-assigned
ObjectIds are modelled as natural numbers handed out sequentially (so identifier
order coincides with insertion order); a request-supplied identifier string is
cast exactly as mongoose casts ObjectIds: a 24-character hexadecimal string
decodes to a number, anything else raises a CastError (which the handlers'
catch clauses turn into HTTP 500).  JSON values are modelled by the inductive
`Value`; mongoose's `strict:false` storage keeps client-supplied key/value
pairs verbatim in the `fields` association list, while the schema-managed keys
(`_id`, `source`, `submittedAt`, `csvData` and the `timestamps` keys) live in
dedicated record fields.  MongoDB's `.sort(\x7bsubmittedAt: -1\x7d)` is modelled as
sorting by submittedAt descending with ties resolved by insertion (identifier)
order.  Both handler variants present in the repository are embedded: the
standalone Express server (`server/server.js`) and the consolidated serverless
handler (`api/forms.js`, including its dedicated csv-import handler).
-/

/-- JSON-like values carried in request bodies and stored by the non-strict
schema (`mongoose.Schema.Types.Mixed` and the open `strict:false` storage). -/
inductive Value where
  | vnull
  | vbool (b : Bool)
  | vnum (n : Int)
  | vstr (s : String)
  | varr (l : List Value)
  | vobj (l : List (String × Value))

/-- JavaScript truthiness of a `Value` (`if (body.csvData)` in the POST
handler, `if (!csvData ...)` in the csv route). -/
def truthy : Value → Bool
  | .vnull => false
  | .vbool b => b
  | .vnum n => n != 0
  | .vstr s => s != ""
  | .varr _ => true
  | .vobj _ => true

/-- `Array.isArray` on the model of JSON values. -/
def isArrayVal : Value → Bool
  | .varr _ => true
  | _ => false

/-- The `source` discriminator; the schema declares `enum: ['form', 'csv']`. -/
inductive Source where
  | form
  | csv
deriving DecidableEq

/-- String form of `source` as stored in the database. -/
def Source.toStr : Source → String
  | .form => "form"
  | .csv => "csv"

/-- A stored form-submission document.  `id` is the server-assigned ObjectId
(decoded to a number), `submittedAt` the timestamp (epoch milliseconds),
`source` the enum-constrained discriminator, `csvData` the Mixed payload, and
`fields` the open (`strict:false`) key/value content supplied by the client. -/
structure Submission where
  id : Nat
  submittedAt : Nat
  source : Source
  csvData : Option Value
  fields : List (String × Value)

/-- The database: documents in insertion order plus the ObjectId counter.
Identifiers are handed out sequentially, so on well-formed states identifier
order coincides with insertion order. -/
structure DB where
  docs : List Submission
  nextId : Nat

/-- Well-formed store: identifiers strictly increase along insertion order and
are all below the counter (exactly the states reachable by creation). -/
def WF (db : DB) : Prop :=
  db.docs.Pairwise (fun a b => a.id < b.id) ∧ ∀ d ∈ db.docs, d.id < db.nextId

instance (db : DB) : Decidable (WF db) := by
  unfold WF
  infer_instance

/-- First-match lookup in an association list (JavaScript object access on the
stored open fields). -/
def getAssoc : List (String × Value) → String → Option Value
  | [], _ => none
  | kv :: t, k => if kv.1 = k then some kv.2 else getAssoc t k

/-- Set a key in an association list (`$set` of one path on the open fields):
replaces existing bindings of the key, appends when absent. -/
def setAssoc : List (String × Value) → String → Value → List (String × Value)
  | [], k, v => [(k, v)]
  | kv :: t, k, v => if kv.1 = k then (k, v) :: setAssoc t k v else kv :: setAssoc t k v

/-- The schema-managed keys, held outside the open `fields` map of the model:
`_id` (immutable identifier), `source` and `submittedAt` (defaulted /
overridden at creation), `csvData` (Mixed payload), and the `timestamps`
bookkeeping keys. -/
def reservedKeys : List String :=
  ["_id", "source", "submittedAt", "csvData", "createdAt", "updatedAt"]

/-- Bodies whose keys avoid the schema-managed keys; on these the embedding of
creation (spread plus schema defaults) is exact. -/
def bodyWF (body : List (String × Value)) : Prop :=
  ∀ kv ∈ body, kv.1 ∉ reservedKeys

instance : DecidablePred bodyWF := by
  intro body
  unfold bodyWF
  infer_instance

/-- A bulk-import row: a JSON object whose keys avoid the schema-managed keys
(the shape produced by parsing a CSV line). -/
def rowWF : Value → Prop
  | .vobj kvs => ∀ kv ∈ kvs, kv.1 ∉ reservedKeys
  | _ => False

instance : DecidablePred rowWF := by
  intro v
  unfold rowWF
  cases v <;> infer_instance

/-- Hexadecimal digit test (mongoose ObjectId casting accepts hex strings). -/
def isHexChar (c : Char) : Bool :=
  c.isDigit || ('a' ≤ c && c ≤ 'f') || ('A' ≤ c && c ≤ 'F')

/-- Numeric value of a hexadecimal digit. -/
def hexVal (c : Char) : Nat :=
  if c.isDigit then c.toNat - '0'.toNat
  else if 'a' ≤ c && c ≤ 'f' then c.toNat - 'a'.toNat + 10
  else c.toNat - 'A'.toNat + 10

/-- Decode a hexadecimal digit string to a number. -/
def hexToNat (l : List Char) : Nat :=
  l.foldl (fun acc c => acc * 16 + hexVal c) 0

/-- Mongoose's cast of a request identifier to an ObjectId: a 24-character
hexadecimal string decodes; anything else fails (CastError).  `findById`,
`findByIdAndUpdate` and `findByIdAndDelete` throw on the failing case, so the
handlers' catch clauses answer 500 there. -/
def parseObjectId (s : String) : Option Nat :=
  if s.length = 24 && s.data.all isHexChar then some (hexToNat s.data) else none

/-- The CastError message mongoose raises for an identifier that fails the
ObjectId cast (its `error.message`, surfaced by the catch clauses). -/
def castErrorMsg (s : String) : String :=
  "Cast to ObjectId failed for value " ++ s ++ " at path _id"

/-- Repository-level `findById` on an already-cast identifier. -/
def findByIdRepo (db : DB) (oid : Nat) : Option Submission :=
  db.docs.find? (fun d => d.id == oid)

/-- The list/search ordering: `.sort(\x7bsubmittedAt: -1\x7d)` — submittedAt
descending, ties in insertion (identifier) order. -/
def recOrd (a b : Submission) : Prop :=
  b.submittedAt < a.submittedAt ∨ (a.submittedAt = b.submittedAt ∧ a.id ≤ b.id)

instance : DecidableRel recOrd := by
  intro a b
  unfold recOrd
  infer_instance

instance : IsTotal Submission recOrd := by
  constructor
  intro a b
  unfold recOrd
  omega

instance : IsTrans Submission recOrd := by
  constructor
  intro a b c hab hbc
  unfold recOrd at *
  omega

/-- Sort a batch of documents most-recent-first: a deterministic refinement of
`.sort(\x7bsubmittedAt: -1\x7d)`.  MongoDB leaves the relative order of equal
`submittedAt` values unspecified; this model resolves such ties by identifier
order, so only properties robust to tie resolution (membership, counts,
pagination arithmetic, the non-strict submittedAt-descending envelope) are
read off it as properties of the program. -/
def sortByRecency (l : List Submission) : List Submission :=
  l.insertionSort recOrd

/-- The list filter built from the `source` and `userType` query parameters. -/
def matchesFilter (srcQ utQ : Option String) (d : Submission) : Bool :=
  (match srcQ with
   | none => true
   | some s => d.source.toStr == s) &&
  (match utQ with
   | none => true
   | some u =>
     match getAssoc d.fields "userType" with
     | some (.vstr s) => s == u
     | _ => false)

/-- `Math.ceil(total / limit)` on naturals (the `pages` computation). -/
def pagesOf (total limit : Nat) : Nat :=
  (total + limit - 1) / limit

/-- Core of the list query: filter, sort most-recent-first, then
`skip((page-1)*limit)` and `limit(limit)`; also the matching total
(`countDocuments(filter)`). -/
def listCore (db : DB) (srcQ utQ : Option String) (page limit : Nat) :
    List Submission × Nat :=
  (((sortByRecency (db.docs.filter (matchesFilter srcQ utQ))).drop
      ((page - 1) * limit)).take limit,
   (db.docs.filter (matchesFilter srcQ utQ)).length)

/-- The schema paths declared with type String. -/
def declaredStringKeys : List String :=
  ["name", "email", "userType", "school", "grade", "major", "company",
   "position", "experience", "skills", "businessName", "industry",
   "employees", "revenue", "interests"]

/-- Mongoose's cast to a declared String path: strings pass through, numbers
and booleans stringify, null is stored as null; arrays and plain objects raise
a CastError (SchemaString.cast rejects arrays explicitly and plain objects
have only Object.prototype.toString). -/
def castString : Value → Option Value
  | .vstr s => some (.vstr s)
  | .vnum n => some (.vstr (toString n))
  | .vbool b => some (.vstr (if b then "true" else "false"))
  | .vnull => some .vnull
  | .varr _ => none
  | .vobj _ => none

/-- Mongoose's cast to the Boolean `newsletter` path: booleans pass through,
the tokens 'true'/'1'/1 and 'false'/'0'/0 convert, null is stored as null;
anything else (e.g. the string "maybe") raises a CastError. -/
def castBoolean : Value → Option Value
  | .vbool b => some (.vbool b)
  | .vstr s =>
    if s = "true" || s = "1" then some (.vbool true)
    else if s = "false" || s = "0" then some (.vbool false)
    else none
  | .vnum n =>
    if n = 1 then some (.vbool true)
    else if n = 0 then some (.vbool false)
    else none
  | .vnull => some .vnull
  | _ => none

/-- Cast of a value written to a Date path (`submittedAt`, and the
`timestamps` keys on updates): a non-negative number is taken as epoch
milliseconds; other shapes fail.  (Date-string parsing is not modelled;
theorems quantify over numeric dates.) -/
def castDate : Value → Option Nat
  | .vnum n => if 0 ≤ n then some n.toNat else none
  | _ => none

/-- Cast of a value written to the `source` path: the schema's
`enum: ['form', 'csv']` validator. -/
def castSource : Value → Option Source
  | .vstr s =>
    if s = "form" then some Source.form
    else if s = "csv" then some Source.csv
    else none
  | _ => none

/-- Mongoose's cast along one open-stored path: declared String paths cast by
`castString`, the Boolean `newsletter` path by `castBoolean`, the `timestamps`
Date paths by `castDate`; undeclared paths are stored verbatim
(`strict:false` skips casting only for paths the schema does not declare). -/
def castField (k : String) (v : Value) : Option Value :=
  if declaredStringKeys.contains k then castString v
  else if k = "newsletter" then castBoolean v
  else if k = "createdAt" || k = "updatedAt" then
    (castDate v).map (fun n => Value.vnum (Int.ofNat n))
  else some v

/-- Cast a whole set of open fields along their paths; any failing path
rejects the document (mongoose throws during document casting/validation). -/
def castBody : List (String × Value) → Option (List (String × Value))
  | [] => some []
  | kv :: t =>
    match castField kv.1 kv.2 with
    | none => none
    | some v' =>
      match castBody t with
      | none => none
      | some t' => some ((kv.1, v') :: t')

/-- The `error.message` of a mongoose casting/validation failure, as surfaced
by the catch clauses. -/
def validationErrorMsg : String :=
  "FormSubmission validation failed"

/-- The stored document built by the single-submission create from accepted
open fields: server-assigned identifier, `submittedAt` from the schema
default, `source` forced to form by the spread. -/
def formDocOf (flds : List (String × Value)) (id now : Nat) : Submission :=
  { id := id, submittedAt := now, source := Source.form, csvData := none
    fields := flds }

/-- The stored document built for one bulk-imported row from its cast open
fields: `\x7b...row, source:'csv', csvData: row\x7d` plus the `submittedAt`
default. -/
def csvDocOf (r : Value) (flds : List (String × Value)) (id now : Nat) :
    Submission :=
  { id := id, submittedAt := now, source := Source.csv, csvData := some r
    fields := flds }

/-- Creation of a single submission: `new FormSubmission(\x7b...body, source:'form'\x7d)`
then `save()`.  The body's open fields are cast against the declared schema
paths — a failing cast (e.g. `newsletter: "maybe"`) rejects the save and the
route answers 500.  On success the server assigns the next identifier, the
schema default sets `submittedAt` to now, and the spread forces
`source='form'`.  The model covers bodies whose keys avoid the schema-managed
keys (`bodyWF`), on which the filter below is the identity and no schema
default is overridden. -/
def createDoc (db : DB) (body : List (String × Value)) (now : Nat) :
    Option (Submission × DB) :=
  match castBody (body.filter (fun kv => !(reservedKeys.contains kv.1))) with
  | none => none
  | some flds =>
    let doc := formDocOf flds db.nextId now
    some (doc, { docs := db.docs ++ [doc], nextId := db.nextId + 1 })

/-- Cast the open fields of one mapped csv row (`\x7b...row, source:'csv',
csvData: row\x7d`); a failing path rejects the whole batch.  A non-object row
spreads to no modelled open fields. -/
def castRowFields : Value → Option (List (String × Value))
  | .vobj kvs => castBody (kvs.filter (fun kv => !(reservedKeys.contains kv.1)))
  | _ => some []

/-- `insertMany` of the mapped csv rows: every document is cast/validated
against the schema before anything is written, so one failing row rejects the
whole batch with nothing inserted; on success, one new document per row,
identifiers assigned sequentially, each with `source='csv'`, `csvData` the
original row, and `submittedAt` now (the schema default, or the csv handler's
explicit `new Date()`). -/
def insertCsvRows (db : DB) (rows : List Value) (now : Nat) :
    Option (List Submission × DB) :=
  match rows with
  | [] => some ([], db)
  | r :: rs =>
    match castRowFields r with
    | none => none
    | some flds =>
      let doc := csvDocOf r flds db.nextId now
      match insertCsvRows { docs := db.docs ++ [doc], nextId := db.nextId + 1 } rs now with
      | none => none
      | some res => some (doc :: res.1, res.2)

/-- Whether an update body passes casting/validation
(`findByIdAndUpdate(..., \x7brunValidators: true\x7d)`): `_id` is immutable,
`source` must satisfy the enum validator, `submittedAt` must cast to a date,
and every other path must cast against the declared schema (String paths,
the Boolean `newsletter` path, the timestamps Date paths; undeclared paths
always pass).  A failing body makes the update throw before any lookup, which
the catch clause answers with 500. -/
def updateValid (body : List (String × Value)) : Bool :=
  body.all (fun kv =>
    if kv.1 = "_id" then false
    else if kv.1 = "source" then (castSource kv.2).isSome
    else if kv.1 = "submittedAt" then (castDate kv.2).isSome
    else (castField kv.1 kv.2).isSome)

/-- Apply one `$set` path of a valid update body to a document; open-stored
paths receive their cast value. -/
def applySet (d : Submission) (kv : String × Value) : Submission :=
  if kv.1 = "source" then { d with source := (castSource kv.2).getD d.source }
  else if kv.1 = "submittedAt" then
    { d with submittedAt := (castDate kv.2).getD d.submittedAt }
  else if kv.1 = "csvData" then { d with csvData := some kv.2 }
  else { d with fields := setAssoc d.fields kv.1 ((castField kv.1 kv.2).getD kv.2) }

/-- Merge a whole update body into a document (mongoose turns a plain update
object into `$set` of each top-level path). -/
def applyUpdate (d : Submission) (body : List (String × Value)) : Submission :=
  body.foldl applySet d

/-- Replace the (first) document with the given identifier. -/
def replaceById : List Submission → Nat → Submission → List Submission
  | [], _, _ => []
  | d :: ds, oid, nd =>
    if d.id == oid then nd :: ds else d :: replaceById ds oid nd

/-- Remove the (first) document with the given identifier
(`findByIdAndDelete`). -/
def removeById : List Submission → Nat → List Submission
  | [], _ => []
  | d :: ds, oid => if d.id == oid then ds else d :: removeById ds oid

/-- Read any top-level key of a stored document, schema-managed or open. -/
def readKey (d : Submission) (k : String) : Option Value :=
  if k = "_id" then some (Value.vnum (Int.ofNat d.id))
  else if k = "source" then some (Value.vstr d.source.toStr)
  else if k = "submittedAt" then some (Value.vnum (Int.ofNat d.submittedAt))
  else if k = "csvData" then d.csvData
  else getAssoc d.fields k

/-- Regular-expression tokens for the search route's pattern
(`new RegExp(query, 'i')`): literal characters and the `.` wildcard.  The model
covers query strings whose only metacharacter is `.`; other metacharacters do
not occur in the claims settled here. -/
inductive RTok where
  | lit (c : Char)
  | dot

/-- Compile the query string the way `new RegExp(query, 'i')` reads it
(restricted to the covered metacharacter set): `.` becomes the wildcard, every
other character a case-insensitive literal. -/
def compileQ (q : String) : List RTok :=
  q.data.map (fun c => if c = '.' then RTok.dot else RTok.lit c)

/-- Match a token list against a prefix of the text, case-insensitively
(the `'i'` flag). -/
def toksMatchPre : List RTok → List Char → Bool
  | [], _ => true
  | _ :: _, [] => false
  | RTok.lit c :: ts, h :: hs => (c.toLower == h.toLower) && toksMatchPre ts hs
  | RTok.dot :: ts, _ :: hs => toksMatchPre ts hs

/-- Match a token list at some position of the text (`RegExp.test`). -/
def toksSearch (ts : List RTok) : List Char → Bool
  | [] => toksMatchPre ts []
  | h :: t => toksMatchPre ts (h :: t) || toksSearch ts t

/-- `new RegExp(q, 'i').test(s)` on the covered pattern fragment. -/
def regexTestI (q s : String) : Bool :=
  toksSearch (compileQ q) s.data

/-- JavaScript regex metacharacters; a query avoiding all of them is read as a
plain (case-insensitive) literal by `new RegExp`. -/
def metaChars : List Char :=
  ['.', '*', '+', '?', '(', ')', '[', ']', '\x7b', '\x7d', '^', '$', '|', '\\']

/-- Query strings containing no regex metacharacter. -/
def noMeta (q : String) : Bool :=
  q.data.all (fun c => !(metaChars.contains c))

/-- Case-insensitive prefix comparison of character lists. -/
def isPrefixCI : List Char → List Char → Bool
  | [], _ => true
  | _ :: _, [] => false
  | a :: as, b :: bs => (a.toLower == b.toLower) && isPrefixCI as bs

/-- Case-insensitive substring occurrence on character lists. -/
def ciSubstrL (pat : List Char) : List Char → Bool
  | [] => pat.isEmpty
  | b :: bs => isPrefixCI pat (b :: bs) || ciSubstrL pat bs

/-- Spec-side predicate, following the specification's words: the query text
occurs as a case-insensitive substring of the string. -/
def ciSubstr (pat hay : String) : Bool :=
  ciSubstrL pat.data hay.data

/-- The five searched paths of the search route. -/
def searchKeys : List String :=
  ["name", "email", "company", "businessName", "school"]

/-- Whether one searched path of a document matches the query regex (a string
field tested by the case-insensitive regex; absent or non-string values do not
match). -/
def fieldMatchesRegex (q : String) (d : Submission) (k : String) : Bool :=
  match getAssoc d.fields k with
  | some (.vstr s) => regexTestI q s
  | _ => false

/-- The search route's `$or` filter over the five paths. -/
def searchMatches (q : String) (d : Submission) : Bool :=
  searchKeys.any (fieldMatchesRegex q d)

/-- Spec-side search predicate, following the specification's words:
the text occurs as a case-insensitive substring of at least one of the five
declared fields. -/
def specSearchMatches (q : String) (d : Submission) : Bool :=
  searchKeys.any (fun k =>
    match getAssoc d.fields k with
    | some (.vstr s) => ciSubstr q s
    | _ => false)

/-- The uniform JSON response envelope
`\x7bsuccess, message?, data?, error?, pagination?, count?\x7d` plus the HTTP
status.  `docs` is the `data` payload when it is a document or list of
documents; `pagination` is `(current, pages, total)`. -/
structure Resp where
  status : Nat
  success : Bool
  message : String
  errField : Option String := none
  docs : List Submission := []
  pagination : Option (Nat × Nat × Nat) := none
  count : Option Nat := none

/-- The `error` field of the consolidated serverless handler's catch clause:
`process.env.NODE_ENV === 'development' ? error.message : 'Something went wrong'`. -/
def apiErrField (env msg : String) : String :=
  if env = "development" then msg else "Something went wrong"

/-- The `error` field of every per-route catch clause of the standalone server
(and of the csv-import handler): `error.message`, regardless of the deployment
mode the process runs under. -/
def serverErrField (_env msg : String) : String := msg

/-- Standalone server `GET /api/forms` (list): defaults `page=1, limit=10`,
filter from `source`/`userType`, sort by recency, skip/limit, count, 200. -/
def serverListRoute (_env : String) (db : DB)
    (pageQ limitQ : Option Nat) (srcQ utQ : Option String) : Resp :=
  let page := pageQ.getD 1
  let limit := limitQ.getD 10
  let res := listCore db srcQ utQ page limit
  { status := 200, success := true, message := "", docs := res.1
    pagination := some (page, pagesOf res.2 limit, res.2) }

/-- Consolidated handler `GET` list branch: identical but `limit` defaults
to 50. -/
def apiListRoute (_env : String) (db : DB)
    (pageQ limitQ : Option Nat) (srcQ utQ : Option String) : Resp :=
  let page := pageQ.getD 1
  let limit := limitQ.getD 50
  let res := listCore db srcQ utQ page limit
  { status := 200, success := true, message := "", docs := res.1
    pagination := some (page, pagesOf res.2 limit, res.2) }

/-- Standalone server `GET /api/forms/:id`: a failing ObjectId cast throws and
the catch answers 500 with the detailed `error.message`; an absent document is
404; otherwise 200 with the document. -/
def serverGetByIdRoute (env : String) (db : DB) (idStr : String) : Resp :=
  match parseObjectId idStr with
  | none =>
    { status := 500, success := false, message := "Error fetching form submission"
      errField := some (serverErrField env (castErrorMsg idStr)) }
  | some oid =>
    match findByIdRepo db oid with
    | none => { status := 404, success := false, message := "Form submission not found" }
    | some d => { status := 200, success := true, message := "", docs := [d] }

/-- Consolidated handler `GET` with `query.id`: same logic, but the shared
catch clause gates the `error` detail on the development mode. -/
def apiGetByIdRoute (env : String) (db : DB) (idStr : String) : Resp :=
  match parseObjectId idStr with
  | none =>
    { status := 500, success := false, message := "Internal server error"
      errField := some (apiErrField env (castErrorMsg idStr)) }
  | some oid =>
    match findByIdRepo db oid with
    | none => { status := 404, success := false, message := "Form not found" }
    | some d => { status := 200, success := true, message := "", docs := [d] }

/-- Standalone server `POST /api/forms`: build the document from the spread
body with `source:'form'` and save; a failing schema cast rejects the save and
the catch answers 500 (with the detailed message, mode-independently);
otherwise 201 with the stored document. -/
def serverCreateRoute (env : String) (db : DB) (body : List (String × Value))
    (now : Nat) : Resp × DB :=
  match createDoc db body now with
  | none =>
    ({ status := 500, success := false, message := "Error saving form submission"
       errField := some (serverErrField env validationErrorMsg) }, db)
  | some res =>
    ({ status := 201, success := true, message := "Form submitted successfully!"
       docs := [res.1] }, res.2)

/-- Standalone server `POST /api/forms/csv` (and the dedicated csv-import
serverless handler): reject with 400 unless `csvData` is present, truthy and an
array; otherwise bulk import — a row failing the schema cast rejects the batch
with 500 and nothing inserted. -/
def serverCsvRoute (env : String) (db : DB) (body : List (String × Value))
    (now : Nat) : Resp × DB :=
  let csvV := (getAssoc body "csvData").getD Value.vnull
  if !truthy csvV || !isArrayVal csvV then
    ({ status := 400, success := false, message := "Invalid CSV data format" }, db)
  else
    match csvV with
    | .varr rows =>
      match insertCsvRows db rows now with
      | none =>
        ({ status := 500, success := false, message := "Error importing CSV data"
           errField := some (serverErrField env validationErrorMsg) }, db)
      | some res =>
        ({ status := 201, success := true
           message := toString res.1.length ++ " records imported successfully!"
           docs := res.1 }, res.2)
    | _ => ({ status := 400, success := false, message := "Invalid CSV data format" }, db)

/-- Consolidated handler `POST`: a truthy `body.csvData` selects the bulk
branch, which calls `.map` on it — a non-array value throws a TypeError there
and the catch answers 500 — and then `insertMany` (a row failing the schema
cast rejects the batch, 500, nothing inserted); a falsy/absent `csvData`
selects single-submission creation, whose failing cast also answers 500.
The shared catch gates the `error` detail on the development mode. -/
def apiPostRoute (env : String) (db : DB) (body : List (String × Value))
    (now : Nat) : Resp × DB :=
  let csvV := (getAssoc body "csvData").getD Value.vnull
  if truthy csvV then
    match csvV with
    | .varr rows =>
      match insertCsvRows db rows now with
      | none =>
        ({ status := 500, success := false, message := "Internal server error"
           errField := some (apiErrField env validationErrorMsg) }, db)
      | some res =>
        ({ status := 201, success := true
           message := toString res.1.length ++ " records imported successfully!"
           docs := res.1 }, res.2)
    | _ =>
      ({ status := 500, success := false, message := "Internal server error"
         errField := some (apiErrField env "body.csvData.map is not a function") }, db)
  else
    match createDoc db body now with
    | none =>
      ({ status := 500, success := false, message := "Internal server error"
         errField := some (apiErrField env validationErrorMsg) }, db)
    | some res =>
      ({ status := 201, success := true, message := "Form submitted successfully!"
         docs := [res.1] }, res.2)

/-- Core of `findByIdAndUpdate(id, body, \x7bnew:true, runValidators:true\x7d)` on an
already-cast identifier and a body that passed casting/validation. -/
def updateCore (db : DB) (oid : Nat) (body : List (String × Value)) :
    Option (Submission × DB) :=
  match findByIdRepo db oid with
  | none => none
  | some d =>
    let nd := applyUpdate d body
    some (nd, { docs := replaceById db.docs oid nd, nextId := db.nextId })

/-- Standalone server `PUT /api/forms/:id`: failing ObjectId cast or failing
update validation throws (500 with detailed message); absent document is 404;
otherwise the merged document is stored and returned with 200. -/
def serverPutRoute (env : String) (db : DB) (idStr : String)
    (body : List (String × Value)) : Resp × DB :=
  match parseObjectId idStr with
  | none =>
    ({ status := 500, success := false, message := "Error updating form submission"
       errField := some (serverErrField env (castErrorMsg idStr)) }, db)
  | some oid =>
    if !updateValid body then
      ({ status := 500, success := false, message := "Error updating form submission"
         errField := some (serverErrField env "Validation failed") }, db)
    else
      match updateCore db oid body with
      | none => ({ status := 404, success := false
                   message := "Form submission not found" }, db)
      | some res =>
        ({ status := 200, success := true, message := "Form updated successfully!"
           docs := [res.1] }, res.2)

/-- Consolidated handler `PUT`: 400 without `query.id`; then as the server
route, with the mode-gated error detail. -/
def apiPutRoute (env : String) (db : DB) (idStrQ : Option String)
    (body : List (String × Value)) : Resp × DB :=
  match idStrQ with
  | none => ({ status := 400, success := false, message := "Form ID required" }, db)
  | some idStr =>
    match parseObjectId idStr with
    | none =>
      ({ status := 500, success := false, message := "Internal server error"
         errField := some (apiErrField env (castErrorMsg idStr)) }, db)
    | some oid =>
      if !updateValid body then
        ({ status := 500, success := false, message := "Internal server error"
           errField := some (apiErrField env "Validation failed") }, db)
      else
        match updateCore db oid body with
        | none => ({ status := 404, success := false, message := "Form not found" }, db)
        | some res =>
          ({ status := 200, success := true, message := "Form updated successfully!"
             docs := [res.1] }, res.2)

/-- Standalone server `DELETE /api/forms/:id`. -/
def serverDeleteRoute (env : String) (db : DB) (idStr : String) : Resp × DB :=
  match parseObjectId idStr with
  | none =>
    ({ status := 500, success := false, message := "Error deleting form submission"
       errField := some (serverErrField env (castErrorMsg idStr)) }, db)
  | some oid =>
    match findByIdRepo db oid with
    | none => ({ status := 404, success := false
                 message := "Form submission not found" }, db)
    | some d =>
      ({ status := 200, success := true, message := "Form submission deleted successfully!"
         docs := [d] }, { docs := removeById db.docs oid, nextId := db.nextId })

/-- Consolidated handler `DELETE`: 400 without `query.id`; then as the server
route, with the mode-gated error detail. -/
def apiDeleteRoute (env : String) (db : DB) (idStrQ : Option String) : Resp × DB :=
  match idStrQ with
  | none => ({ status := 400, success := false, message := "Form ID required" }, db)
  | some idStr =>
    match parseObjectId idStr with
    | none =>
      ({ status := 500, success := false, message := "Internal server error"
         errField := some (apiErrField env (castErrorMsg idStr)) }, db)
    | some oid =>
      match findByIdRepo db oid with
      | none => ({ status := 404, success := false, message := "Form not found" }, db)
      | some d =>
        ({ status := 200, success := true, message := "Form deleted successfully!"
           docs := [d] }, { docs := removeById db.docs oid, nextId := db.nextId })

/-- `GET /api/analytics` totals: `countDocuments()` and the two
source-filtered `countDocuments` calls, plus the five most recent submissions.
(The userType aggregation of the route is not consumed by any claim settled
here and is omitted from the model.) -/
def analyticsRoute (db : DB) : Nat × Nat × Nat × List Submission :=
  (db.docs.length,
   (db.docs.filter (fun d => d.source.toStr == "form")).length,
   (db.docs.filter (fun d => d.source.toStr == "csv")).length,
   (sortByRecency db.docs).take 5)

/-- `GET /api/forms/search/:query`: the `$or` regex filter over the five
paths, sorted most-recent-first, with the match count and no pagination. -/
def searchRoute (db : DB) (q : String) : Resp :=
  let res := sortByRecency (db.docs.filter (searchMatches q))
  { status := 200, success := true, message := "", docs := res
    count := some res.length }

/-- Example store: one form submission (name "Jo"), identifier 0, counter 1. -/
def exDoc1 : Submission :=
  { id := 0, submittedAt := 10, source := Source.form, csvData := none
    fields := [("name", Value.vstr "Jo"), ("userType", Value.vstr "student")] }

/-- Example store holding `exDoc1`. -/
def exDb1 : DB :=
  { docs := [exDoc1], nextId := 1 }

/-- A well-formed identifier string decoding to 0. -/
def exIdStr0 : String := "000000000000000000000000"

/-- A well-formed identifier string decoding to 7 (no stored document). -/
def exIdStr7 : String := "000000000000000000000007"

/-- Helper: `List.any` respects pointwise equal predicates. -/
theorem any_congr_local {α : Type} {f g : α → Bool} (l : List α)
    (h : ∀ a ∈ l, f a = g a) : l.any f = l.any g := by
  induction l with
  | nil => rfl
  | cons a t ih =>
    simp only [List.any_cons]
    rw [h a (by simp), ih fun a ha => h a (by simp [ha])]

/-- Helper: a store splits into its form-sourced and csv-sourced documents. -/
theorem length_split_by_source (l : List Submission) :
    l.length =
      (l.filter (fun d => d.source.toStr == "form")).length +
      (l.filter (fun d => d.source.toStr == "csv")).length := by
  induction l with
  | nil => rfl
  | cons d t ih =>
    cases hs : d.source <;>
      simp [List.filter_cons, Source.toStr, hs, ih] <;> omega

/-- C7: for every data state, the analytics totals satisfy
`totalSubmissions = submissionsBySource.form + submissionsBySource.csv`:
the first component of `analyticsRoute` equals the sum of the second and
third. -/
theorem c7_analytics_totals (db : DB) :
    (analyticsRoute db).1 = (analyticsRoute db).2.1 + (analyticsRoute db).2.2.1 := by
  simpa [analyticsRoute] using length_split_by_source db.docs

/-- Helper: the ceiling-division `pages` value is the least page count covering
`total` records at `limit` per page — i.e. it is `ceil(total / limit)`. -/
theorem pagesOf_is_ceil (total limit : Nat) (hl : 0 < limit) :
    total ≤ pagesOf total limit * limit ∧
    ∀ k, total ≤ k * limit → pagesOf total limit ≤ k := by
  constructor
  · have h := (Nat.div_le_iff_le_mul_add_pred hl
      (a := total + limit - 1) (c := (total + limit - 1) / limit)).mp (Nat.le_refl _)
    unfold pagesOf
    rw [Nat.mul_comm]
    generalize hm : limit * ((total + limit - 1) / limit) = m at h ⊢
    omega
  · intro k hk
    unfold pagesOf
    rw [Nat.div_le_iff_le_mul_add_pred hl]
    rw [Nat.mul_comm] at hk
    generalize hm : limit * k = m at hk ⊢
    omega

/-- C2: for positive `page` and `limit`, both list handlers skip
`(page-1)*limit` records of the sorted filtered store, return at most `limit`
records, and report `pagination.pages` equal to the ceiling of
`total / limit` (characterised as the least `k` with `total ≤ k * limit`),
where `total` counts the records matching the filter. -/
theorem c2_pagination (env : String) (db : DB) (srcQ utQ : Option String)
    (page limit : Nat) (hp : 0 < page) (hl : 0 < limit) :
    (serverListRoute env db (some page) (some limit) srcQ utQ).docs =
      ((sortByRecency (db.docs.filter (matchesFilter srcQ utQ))).drop
        ((page - 1) * limit)).take limit ∧
    (serverListRoute env db (some page) (some limit) srcQ utQ).docs.length ≤ limit ∧
    (apiListRoute env db (some page) (some limit) srcQ utQ).docs =
      (serverListRoute env db (some page) (some limit) srcQ utQ).docs ∧
    (serverListRoute env db (some page) (some limit) srcQ utQ).pagination =
      some (page,
        pagesOf (db.docs.filter (matchesFilter srcQ utQ)).length limit,
        (db.docs.filter (matchesFilter srcQ utQ)).length) ∧
    (db.docs.filter (matchesFilter srcQ utQ)).length ≤
      pagesOf (db.docs.filter (matchesFilter srcQ utQ)).length limit * limit ∧
    ∀ k, (db.docs.filter (matchesFilter srcQ utQ)).length ≤ k * limit →
      pagesOf (db.docs.filter (matchesFilter srcQ utQ)).length limit ≤ k := by
  have hceil := pagesOf_is_ceil (db.docs.filter (matchesFilter srcQ utQ)).length limit hl
  refine ⟨rfl, ?_, rfl, rfl, hceil.1, hceil.2⟩
  simp only [serverListRoute, listCore, Option.getD_some, List.length_take]
  exact inf_le_left

/-- C2 witness: the pagination facts at a concrete store, page 1, limit 2. -/
theorem c2_pagination_witness :
    0 < 1 ∧ 0 < 2 ∧
    ((serverListRoute "production" exDb1 (some 1) (some 2) none none).docs =
      ((sortByRecency (exDb1.docs.filter (matchesFilter none none))).drop
        ((1 - 1) * 2)).take 2 ∧
    (serverListRoute "production" exDb1 (some 1) (some 2) none none).docs.length ≤ 2 ∧
    (apiListRoute "production" exDb1 (some 1) (some 2) none none).docs =
      (serverListRoute "production" exDb1 (some 1) (some 2) none none).docs ∧
    (serverListRoute "production" exDb1 (some 1) (some 2) none none).pagination =
      some (1,
        pagesOf (exDb1.docs.filter (matchesFilter none none)).length 2,
        (exDb1.docs.filter (matchesFilter none none)).length) ∧
    (exDb1.docs.filter (matchesFilter none none)).length ≤
      pagesOf (exDb1.docs.filter (matchesFilter none none)).length 2 * 2 ∧
    ∀ k, (exDb1.docs.filter (matchesFilter none none)).length ≤ k * 2 →
      pagesOf (exDb1.docs.filter (matchesFilter none none)).length 2 ≤ k) :=
  ⟨by decide, by decide,
   c2_pagination "production" exDb1 none none 1 2 (by decide) (by decide)⟩

/-- Helper: when every mapped row passes the schema cast, `insertMany`
succeeds with one document per row, appended to the store, each csv-sourced
with its original row as `csvData`. -/
theorem insertCsvRows_some (rows : List Value) (db : DB) (now : Nat)
    (hc : ∀ row ∈ rows, (castRowFields row).isSome) :
    ∃ res, insertCsvRows db rows now = some res ∧
      res.1.length = rows.length ∧
      res.2.docs = db.docs ++ res.1 ∧
      res.1.map (fun d => d.csvData) = rows.map some ∧
      ∀ d ∈ res.1, d.source = Source.csv := by
  induction rows generalizing db with
  | nil => exact ⟨([], db), rfl, rfl, by simp, rfl, by simp⟩
  | cons r rs ih =>
    obtain ⟨flds, hflds⟩ := Option.isSome_iff_exists.mp (hc r (by simp))
    obtain ⟨res, hres, h1, h2, h3, h4⟩ :=
      ih { docs := db.docs ++ [csvDocOf r flds db.nextId now]
           nextId := db.nextId + 1 }
        (fun row hrow => hc row (by simp [hrow]))
    refine ⟨(csvDocOf r flds db.nextId now :: res.1, res.2), ?_, ?_, ?_, ?_, ?_⟩
    · simp only [insertCsvRows, hflds, hres]
    · simp [h1]
    · rw [h2]
      simp
    · simp [h3, csvDocOf]
    · intro d hd
      rcases List.mem_cons.mp hd with hd | hd
      · rw [hd]
        rfl
      · exact h4 d hd

/-- Helper: one row failing the schema cast rejects the whole `insertMany`
batch. -/
theorem insertCsvRows_none (rows : List Value) (db : DB) (now : Nat)
    (h : ∃ row ∈ rows, castRowFields row = none) :
    insertCsvRows db rows now = none := by
  induction rows generalizing db with
  | nil => simp at h
  | cons r rs ih =>
    obtain ⟨row, hrow, hnone⟩ := h
    rcases List.mem_cons.mp hrow with heq | hmem
    · subst heq
      simp [insertCsvRows, hnone]
    · cases hcr : castRowFields r with
      | none => simp [insertCsvRows, hcr]
      | some flds =>
        have hih := ih
          { docs := db.docs ++ [csvDocOf r flds db.nextId now]
            nextId := db.nextId + 1 } ⟨row, hmem, hnone⟩
        simp [insertCsvRows, hcr, hih]

/-- C10: a POST body whose `csvData` is truthy but not an array sends the
consolidated generic-POST handler into the bulk branch, which fails with 500
(`.map` on a non-array throws), while the dedicated csv route rejects the same
body with 400 and leaves the store unchanged. -/
theorem c10_csv_branch_divergence (env : String) (db : DB) (v : Value) (now : Nat)
    (hv : truthy v = true) (ha : isArrayVal v = false) :
    (apiPostRoute env db [("csvData", v)] now).1.status = 500 ∧
    (apiPostRoute env db [("csvData", v)] now).2 = db ∧
    (serverCsvRoute env db [("csvData", v)] now).1.status = 400 ∧
    (serverCsvRoute env db [("csvData", v)] now).2 = db := by
  cases v <;> simp_all [apiPostRoute, serverCsvRoute, getAssoc, truthy, isArrayVal]

/-- C10 witness: `csvData` a non-empty string. -/
theorem c10_csv_branch_divergence_witness :
    truthy (Value.vstr "x") = true ∧ isArrayVal (Value.vstr "x") = false ∧
    ((apiPostRoute "production" exDb1 [("csvData", Value.vstr "x")] 20).1.status = 500 ∧
     (apiPostRoute "production" exDb1 [("csvData", Value.vstr "x")] 20).2 = exDb1 ∧
     (serverCsvRoute "production" exDb1 [("csvData", Value.vstr "x")] 20).1.status = 400 ∧
     (serverCsvRoute "production" exDb1 [("csvData", Value.vstr "x")] 20).2 = exDb1) :=
  ⟨by decide, by decide,
   c10_csv_branch_divergence "production" exDb1 (Value.vstr "x") 20 rfl rfl⟩

/-- Helper: a key bound nowhere in an association list is not found. -/
theorem getAssoc_eq_none_of_forall_ne (body : List (String × Value)) (k : String)
    (h : ∀ kv ∈ body, kv.1 ≠ k) : getAssoc body k = none := by
  induction body with
  | nil => rfl
  | cons kv t ih =>
    simp only [getAssoc]
    rw [if_neg (h kv (by simp))]
    exact ih fun kv' hkv' => h kv' (by simp [hkv'])

/-- Helper: a well-formed body survives the reserved-key filter unchanged. -/
theorem filter_reserved_eq_self (body : List (String × Value)) (hb : bodyWF body) :
    body.filter (fun kv => !(reservedKeys.contains kv.1)) = body := by
  rw [List.filter_eq_self]
  intro kv hkv
  have := hb kv hkv
  simpa using this

/-- Helper: a well-formed body has no `csvData` key, so the consolidated POST
handler takes the single-submission branch; when the body is accepted verbatim
by the schema cast, the save succeeds and stores it unchanged. -/
theorem apiPostRoute_single (env : String) (db : DB) (body : List (String × Value))
    (now : Nat) (hb : bodyWF body) (hc : castBody body = some body) :
    apiPostRoute env db body now =
      ({ status := 201, success := true, message := "Form submitted successfully!"
         docs := [formDocOf body db.nextId now] },
       { docs := db.docs ++ [formDocOf body db.nextId now]
         nextId := db.nextId + 1 }) := by
  have hcsv : getAssoc body "csvData" = none := by
    refine getAssoc_eq_none_of_forall_ne body "csvData" fun kv hkv heq => ?_
    exact hb kv hkv (by rw [heq]; simp [reservedKeys])
  have hfil : body.filter (fun kv => !(reservedKeys.contains kv.1)) = body :=
    filter_reserved_eq_self body hb
  have hcd : createDoc db body now =
      some (formDocOf body db.nextId now,
            { docs := db.docs ++ [formDocOf body db.nextId now]
              nextId := db.nextId + 1 }) := by
    unfold createDoc
    rw [hfil, hc]
  simp [apiPostRoute, hcsv, truthy, hcd]

/-- Helper: the standalone create route on an accepted well-formed body. -/
theorem serverCreateRoute_single (env : String) (db : DB)
    (body : List (String × Value)) (now : Nat) (hb : bodyWF body)
    (hc : castBody body = some body) :
    serverCreateRoute env db body now =
      ({ status := 201, success := true, message := "Form submitted successfully!"
         docs := [formDocOf body db.nextId now] },
       { docs := db.docs ++ [formDocOf body db.nextId now]
         nextId := db.nextId + 1 }) := by
  have hfil : body.filter (fun kv => !(reservedKeys.contains kv.1)) = body :=
    filter_reserved_eq_self body hb
  have hcd : createDoc db body now =
      some (formDocOf body db.nextId now,
            { docs := db.docs ++ [formDocOf body db.nextId now]
              nextId := db.nextId + 1 }) := by
    unfold createDoc
    rw [hfil, hc]
  simp [serverCreateRoute, hcd]

/-- Helper: looking up a freshly appended document with an identifier no
existing document carries finds exactly the new document. -/
theorem find?_append_fresh (l : List Submission) (doc : Submission)
    (h : ∀ d ∈ l, d.id ≠ doc.id) :
    (l ++ [doc]).find? (fun d => d.id == doc.id) = some doc := by
  rw [List.find?_append]
  have h1 : l.find? (fun d => d.id == doc.id) = none := by
    rw [List.find?_eq_none]
    intro d hd
    simp [h d hd]
  simp [h1, List.find?]

/-- C1: a submission body accepted by the single-submission create (a POST
without `csvData`, whose fields the declared schema accepts verbatim) answers
201 on both handler variants and stores a document whose open fields equal the
body, with the server-assigned fresh identifier, `submittedAt = now` and
`source = form`; `findById` on the returned identifier yields exactly that
document.  (Bodies the schema cast rejects, e.g. `newsletter: "maybe"`, are
not accepted: the routes answer 500 and store nothing — visible in
`createDoc`'s failure branch.) -/
theorem c1_roundtrip (env : String) (db : DB) (x : List (String × Value)) (now : Nat)
    (hwf : WF db) (hx : bodyWF x) (hacc : castBody x = some x) :
    (apiPostRoute env db x now).1.status = 201 ∧
    (serverCreateRoute env db x now).1.status = 201 ∧
    ∃ doc,
      (apiPostRoute env db x now).1.docs = [doc] ∧
      (serverCreateRoute env db x now).1.docs = [doc] ∧
      findByIdRepo (apiPostRoute env db x now).2 doc.id = some doc ∧
      doc.fields = x ∧
      doc.source = Source.form ∧
      doc.submittedAt = now ∧
      doc.id = db.nextId := by
  rw [apiPostRoute_single env db x now hx hacc,
      serverCreateRoute_single env db x now hx hacc]
  refine ⟨rfl, rfl,
    ⟨formDocOf x db.nextId now, rfl, rfl, ?_, rfl, rfl, rfl, rfl⟩⟩
  exact find?_append_fresh db.docs _ fun d hd => Nat.ne_of_lt (hwf.2 d hd)

/-- C1 witness: the round trip at a concrete store and body. -/
theorem c1_roundtrip_witness :
    WF exDb1 ∧ bodyWF [("name", Value.vstr "Mo")] ∧
    castBody [("name", Value.vstr "Mo")] = some [("name", Value.vstr "Mo")] ∧
    ((apiPostRoute "production" exDb1 [("name", Value.vstr "Mo")] 20).1.status = 201 ∧
     (serverCreateRoute "production" exDb1
       [("name", Value.vstr "Mo")] 20).1.status = 201 ∧
     ∃ doc,
       (apiPostRoute "production" exDb1 [("name", Value.vstr "Mo")] 20).1.docs =
         [doc] ∧
       (serverCreateRoute "production" exDb1 [("name", Value.vstr "Mo")] 20).1.docs =
         [doc] ∧
       findByIdRepo (apiPostRoute "production" exDb1
         [("name", Value.vstr "Mo")] 20).2 doc.id = some doc ∧
       doc.fields = [("name", Value.vstr "Mo")] ∧
       doc.source = Source.form ∧
       doc.submittedAt = 20 ∧
       doc.id = exDb1.nextId) :=
  ⟨by decide, by decide, rfl,
   c1_roundtrip "production" exDb1 [("name", Value.vstr "Mo")] 20
     (by decide) (by decide) rfl⟩

/-- Helper: setting a key then reading it back yields the new value. -/
theorem getAssoc_setAssoc_self (l : List (String × Value)) (k : String) (v : Value) :
    getAssoc (setAssoc l k v) k = some v := by
  induction l with
  | nil => simp [setAssoc, getAssoc]
  | cons kv t ih =>
    by_cases h : kv.1 = k <;> simp [setAssoc, getAssoc, h, ih]

/-- Helper: setting a key leaves every other key's value unchanged. -/
theorem getAssoc_setAssoc_ne (l : List (String × Value)) (k : String) (v : Value)
    (k' : String) (h : k' ≠ k) :
    getAssoc (setAssoc l k v) k' = getAssoc l k' := by
  induction l with
  | nil => simp [setAssoc, getAssoc, Ne.symm h]
  | cons kv t ih =>
    by_cases hk : kv.1 = k
    · simp [setAssoc, getAssoc, hk, ih, Ne.symm h]
    · by_cases hk' : kv.1 = k' <;> simp [setAssoc, getAssoc, hk, hk', ih, h]

/-- Helper: `$set` of one path never changes the identifier. -/
theorem applySet_id (d : Submission) (kv : String × Value) :
    (applySet d kv).id = d.id := by
  unfold applySet
  repeat' split
  all_goals rfl

/-- Helper: replacing the found document by one with the same identifier makes
the lookup return the replacement. -/
theorem find?_replaceById (l : List Submission) (oid : Nat) (doc nd : Submission)
    (hfind : l.find? (fun d => d.id == oid) = some doc) (hid : nd.id = doc.id) :
    (replaceById l oid nd).find? (fun d => d.id == oid) = some nd := by
  induction l with
  | nil => simp [List.find?] at hfind
  | cons d ds ih =>
    by_cases hd : d.id = oid
    · have : d = doc := by
        rw [List.find?_cons_of_pos _ (by simp [hd])] at hfind
        exact Option.some.inj hfind
      subst this
      simp only [replaceById, beq_iff_eq, hd, if_true]
      exact List.find?_cons_of_pos _ (by simp [hid, hd])
    · rw [List.find?_cons_of_neg _ (by simp [hd])] at hfind
      simp only [replaceById, beq_iff_eq, hd, if_false]
      rw [List.find?_cons_of_neg _ (by simp [hd])]
      exact ih hfind

/-- Helper: a valid single-path update whose value the schema cast accepts
verbatim writes exactly the supplied value, as observed through `readKey`. -/
theorem readKey_applySet_self (d : Submission) (k : String) (v : Value)
    (hv : updateValid [(k, v)] = true) (hcv : castField k v = some v) :
    readKey (applySet d (k, v)) k = some v := by
  simp only [updateValid, List.all_cons, List.all_nil, Bool.and_true] at hv
  by_cases h1 : k = "_id"
  · simp [h1] at hv
  by_cases h2 : k = "source"
  · subst h2
    simp only [reduceIte] at hv
    cases v with
    | vstr s =>
      simp only [castSource] at hv
      by_cases hs : s = "form"
      · subst hs; simp [applySet, readKey, castSource, Source.toStr]
      · by_cases hc : s = "csv"
        · subst hc; simp [applySet, readKey, castSource, Source.toStr]
        · simp [castSource, hs, hc] at hv
    | vnull => simp [castSource] at hv
    | vbool b => simp [castSource] at hv
    | vnum n => simp [castSource] at hv
    | varr l => simp [castSource] at hv
    | vobj l => simp [castSource] at hv
  by_cases h3 : k = "submittedAt"
  · subst h3
    simp only [reduceIte] at hv
    cases v with
    | vnum n =>
      simp only [castDate] at hv
      by_cases hn : (0 : Int) ≤ n
      · simp [applySet, readKey, castDate, hn, Int.toNat_of_nonneg hn]
      · simp [castDate, hn] at hv
    | vnull => simp [castDate] at hv
    | vbool b => simp [castDate] at hv
    | vstr s => simp [castDate] at hv
    | varr l => simp [castDate] at hv
    | vobj l => simp [castDate] at hv
  by_cases h4 : k = "csvData"
  · subst h4
    simp [applySet, readKey]
  · simp [applySet, readKey, h1, h2, h3, h4, hcv, getAssoc_setAssoc_self]

/-- Helper: a single-path update leaves every other key's value unchanged, as
observed through `readKey`. -/
theorem readKey_applySet_frame (d : Submission) (k : String) (v : Value)
    (k' : String) (hne : k' ≠ k) :
    readKey (applySet d (k, v)) k' = readKey d k' := by
  by_cases h2 : k = "source"
  · subst h2
    simp [applySet, readKey, hne]
  by_cases h3 : k = "submittedAt"
  · subst h3
    simp [applySet, readKey, hne, h2]
  by_cases h4 : k = "csvData"
  · subst h4
    simp [applySet, readKey, hne, h2, h3]
  · simp only [applySet, h2, h3, h4, reduceIte, if_neg]
    simp [readKey, getAssoc_setAssoc_ne d.fields k ((castField k v).getD v) k' hne]

/-- Helper: on metacharacter-free queries the compiled pattern is all
literals. -/
theorem compileQ_of_noMeta (q : String) (hq : noMeta q = true) :
    compileQ q = q.data.map RTok.lit := by
  unfold compileQ
  refine List.map_congr_left fun c hc => ?_
  have hmem := (List.all_eq_true.mp hq) c hc
  have : c ≠ '.' := by
    intro hdot
    subst hdot
    simp [metaChars] at hmem
  simp [this]

/-- Helper: an all-literal pattern prefix-matches exactly as the
case-insensitive prefix comparison. -/
theorem toksMatchPre_lit (p h : List Char) :
    toksMatchPre (p.map RTok.lit) h = isPrefixCI p h := by
  induction p generalizing h with
  | nil => cases h <;> rfl
  | cons c cs ih =>
    cases h with
    | nil => rfl
    | cons b bs => simp [toksMatchPre, isPrefixCI, ih]

/-- Helper: an all-literal pattern search is exactly the case-insensitive
substring occurrence. -/
theorem toksSearch_lit (p h : List Char) :
    toksSearch (p.map RTok.lit) h = ciSubstrL p h := by
  induction h with
  | nil =>
    cases p with
    | nil => rfl
    | cons c cs => rfl
  | cons b bs ih => simp [toksSearch, ciSubstrL, toksMatchPre_lit, ih]

/-- Helper: on metacharacter-free queries the route's regex test is exactly
the spec's case-insensitive substring occurrence. -/
theorem regexTestI_eq_ciSubstr (q s : String) (hq : noMeta q = true) :
    regexTestI q s = ciSubstr q s := by
  unfold regexTestI ciSubstr
  rw [compileQ_of_noMeta q hq, toksSearch_lit]

/-- Helper: on metacharacter-free queries the route's document filter agrees
with the spec's substring-across-five-fields predicate. -/
theorem searchMatches_eq_spec (q : String) (d : Submission) (hq : noMeta q = true) :
    searchMatches q d = specSearchMatches q d := by
  unfold searchMatches specSearchMatches
  refine any_congr_local searchKeys fun k _ => ?_
  unfold fieldMatchesRegex
  cases hval : getAssoc d.fields k with
  | none => rfl
  | some v =>
    cases v <;> simp [regexTestI_eq_ciSubstr q _ hq]

/-- C8 counterexample: the query "." (a regex metacharacter) is matched by
the route against a record whose name is "x", although "." does not occur as a
case-insensitive substring of any searched field — refuting "returns exactly
the submissions in which text occurs as a case-insensitive substring".  The
route builds `new RegExp(query, 'i')` from the raw query, so metacharacters
keep their regex meaning. -/
theorem c8_counterexample :
    (searchRoute { docs := [{ id := 0, submittedAt := 0, source := Source.form
                              csvData := none
                              fields := [("name", Value.vstr "x")] }], nextId := 1 }
      ".").docs =
      [{ id := 0, submittedAt := 0, source := Source.form, csvData := none
         fields := [("name", Value.vstr "x")] }] ∧
    specSearchMatches "."
      { id := 0, submittedAt := 0, source := Source.form, csvData := none
        fields := [("name", Value.vstr "x")] } = false ∧
    ciSubstr "." "x" = false :=
  ⟨rfl, rfl, rfl⟩

/-- C8 (amended): the route filters by the case-insensitive regex built from
the raw query; for query texts free of regex metacharacters this coincides
with the claim — the returned documents are exactly those in which the text
occurs as a case-insensitive substring of one of name, email, company,
businessName, school, ordered newest-first, with the full match count and no
pagination. -/
theorem c8_search (db : DB) (q : String) (hq : noMeta q = true) :
    (searchRoute db q).docs =
      sortByRecency (db.docs.filter (specSearchMatches q)) ∧
    (searchRoute db q).docs.Pairwise (fun a b => b.submittedAt ≤ a.submittedAt) ∧
    (searchRoute db q).count =
      some (db.docs.filter (specSearchMatches q)).length := by
  have hfil : db.docs.filter (searchMatches q) = db.docs.filter (specSearchMatches q) :=
    List.filter_congr fun d _ => searchMatches_eq_spec q d hq
  refine ⟨?_, ?_, ?_⟩
  · simp only [searchRoute, hfil]
  · have hsorted : (sortByRecency (db.docs.filter (searchMatches q))).Pairwise recOrd :=
      List.sorted_insertionSort recOrd _
    exact hsorted.imp fun h => by unfold recOrd at h; omega
  · simp only [searchRoute, hfil]
    congr 1
    exact (List.perm_insertionSort recOrd _).length_eq

/-- C8 witness: searching "jo" finds the stored record named "Jo"
(case-insensitively). -/
theorem c8_search_witness :
    noMeta "jo" = true ∧
    ((searchRoute exDb1 "jo").docs =
      sortByRecency (exDb1.docs.filter (specSearchMatches "jo")) ∧
    (searchRoute exDb1 "jo").docs.Pairwise
      (fun a b => b.submittedAt ≤ a.submittedAt) ∧
    (searchRoute exDb1 "jo").count =
      some (exDb1.docs.filter (specSearchMatches "jo")).length) :=
  ⟨rfl, c8_search exDb1 "jo" rfl⟩

/-- C9 counterexample: in production mode, a failing request on a standalone
server route (here: GET by malformed identifier) carries the detailed
`error.message` in its `error` field — the per-route catch clauses of
`server.js` (and the csv-import handler) never substitute the generic
message, refuting the claim that detail appears only in development mode. -/
theorem c9_counterexample :
    (serverGetByIdRoute "production" exDb1 "xyz").status = 500 ∧
    (serverGetByIdRoute "production" exDb1 "xyz").errField =
      some (castErrorMsg "xyz") ∧
    castErrorMsg "xyz" ≠ "Something went wrong" ∧
    castErrorMsg "xyz" ≠ "Internal server error" :=
  ⟨rfl, rfl, by decide, by decide⟩

/-- C9 (amended): only the consolidated serverless handler gates error detail
on the deployment mode — its 500 responses carry the detailed message exactly
in development mode and the generic "Something went wrong" otherwise — while
the standalone server's per-route catch clauses always emit the detailed
`error.message`, whatever the mode. -/
theorem c9_error_detail (env : String) (db : DB) (idStr : String)
    (hpar : parseObjectId idStr = none) :
    (apiGetByIdRoute env db idStr).status = 500 ∧
    (apiGetByIdRoute env db idStr).errField =
      some (apiErrField env (castErrorMsg idStr)) ∧
    (env ≠ "development" →
      (apiGetByIdRoute env db idStr).errField = some "Something went wrong") ∧
    (env = "development" →
      (apiGetByIdRoute env db idStr).errField = some (castErrorMsg idStr)) ∧
    (serverGetByIdRoute env db idStr).status = 500 ∧
    (serverGetByIdRoute env db idStr).errField = some (castErrorMsg idStr) := by
  refine ⟨?_, ?_, ?_, ?_, ?_, ?_⟩ <;>
    simp_all [apiGetByIdRoute, serverGetByIdRoute, apiErrField, serverErrField, hpar]

/-- C9 witness: production mode, malformed identifier "xyz". -/
theorem c9_error_detail_witness :
    parseObjectId "xyz" = none ∧
    ((apiGetByIdRoute "production" exDb1 "xyz").status = 500 ∧
     (apiGetByIdRoute "production" exDb1 "xyz").errField =
       some (apiErrField "production" (castErrorMsg "xyz")) ∧
     ("production" ≠ "development" →
       (apiGetByIdRoute "production" exDb1 "xyz").errField =
         some "Something went wrong") ∧
     ("production" = "development" →
       (apiGetByIdRoute "production" exDb1 "xyz").errField =
         some (castErrorMsg "xyz")) ∧
     (serverGetByIdRoute "production" exDb1 "xyz").status = 500 ∧
     (serverGetByIdRoute "production" exDb1 "xyz").errField =
       some (castErrorMsg "xyz")) :=
  ⟨rfl, c9_error_detail "production" exDb1 "xyz" rfl⟩
